import Mathlib

/-!
# Verification of the hapi-fundamental core services

Shallow embedding of the cache-aside like counter (`AlbumLikesService`), the
playlist ownership gate and its mutators (`PlaylistsService`), the Redis
cache adapter (`CacheService`), and the append-only activity log, translated
from the repository's JavaScript sources.

The repository carries two divergent copies of several services: the files
under `src/` (authoritative) and the copies shown in the build guide
document. The `src/` copies are embedded at top level with their source
names; the guide copies are embedded in the `Guide` namespace.

Modelling conventions:
* Each service method becomes a pure function from an explicit state `St`
  to `(result, new state, trace of store/cache operations)`.  A JavaScript
  `throw` becomes an `Except.error`; prior state mutations (committed store
  writes) are kept, as in the real system.
* `nanoid(16)` is modelled by a fresh-id counter `nextId`;
  `new Date().toISOString()` by a logical clock (server-assigned,
  monotone timestamps).
* Redis string values are always JSON-encoded integers here
  (`JSON.stringify`/`JSON.parse` round-trip), so cache values are `Nat`.
* The Redis transport can fail; the flags `cacheGetFails`, `cacheSetFails`
  and `cacheDelFails` say whether a get/set/del call fails at transport
  level (connection down) instead of reaching the cache content.
* Database uniqueness and foreign-key constraints from the migrations
  (`unique_user_and_album`, `unique_playlist_id_and_song_id`, the
  `playlist_song_activities.playlist_id` foreign key) are part of the store
  model: a violating insert yields the raw driver error carrying the
  constraint name, `Err.pgConstraintViolation`.
-/

/-- A `user_album_likes` row. -/
structure Like where
  id : String
  user : String
  album : String
deriving Repr, DecidableEq

/-- A `playlists` row. -/
structure Playlist where
  id : String
  name : String
  owner : String
deriving Repr, DecidableEq

/-- A `users` row (the columns the embedded queries read). -/
structure User where
  id : String
  username : String
deriving Repr, DecidableEq

/-- A `songs` row (the columns the embedded queries read). -/
structure Song where
  id : String
  title : String
  performer : String
deriving Repr, DecidableEq

/-- A `playlist_songs` row. -/
structure PlaylistSong where
  id : String
  playlist_id : String
  song_id : String
deriving Repr, DecidableEq

/-- A `playlist_song_activities` row; `time` is the server-assigned
timestamp (logical clock). -/
structure Activity where
  id : String
  playlist_id : String
  song_id : String
  user_id : String
  action : String
  time : Nat
deriving Repr, DecidableEq

/-- One Redis entry: key, JSON-encoded integer value, expiry in seconds. -/
structure CacheEntry where
  key : String
  value : Nat
  ttl : Nat
deriving Repr, DecidableEq

/-- The combined store + cache state threaded through the services. -/
structure St where
  likes : List Like
  playlists : List Playlist
  users : List User
  songs : List Song
  playlistSongs : List PlaylistSong
  activities : List Activity
  cache : List CacheEntry
  cacheGetFails : Bool
  cacheSetFails : Bool
  cacheDelFails : Bool
  nextId : Nat
  clock : Nat
deriving Repr, DecidableEq

/-- Error channel: the repository's exception classes plus the raw driver
errors they are built from. -/
inductive Err where
  | invariantError (msg : String)
  | notFoundError (msg : String)
  | authorizationError (msg : String)
  /-- Raw `pg` error whose `error.constraint` field names the violated
  constraint; generic store failure unless a service maps it. -/
  | pgConstraintViolation (constraintName : String)
  /-- `Error('Cache not found')` thrown by `CacheService.get` on a
  logical miss. -/
  | cacheMiss
  /-- Redis client transport failure (connection unreachable). -/
  | cacheTransport
deriving Repr, DecidableEq

/-- Trace of store and cache operations a service call performs, in order. -/
inductive Ev where
  | qSelectLikeExists (userId albumId : String)
  | qInsertLike (id userId albumId : String)
  | qDeleteLike (userId albumId : String)
  | qCountLikes (albumId : String)
  | cGet (key : String)
  | cSet (key : String) (value ttl : Nat)
  | cDel (key : String)
  | qSelectPlaylistOwner (playlistId : String)
  | qDeletePlaylist (playlistId : String)
  | qSelectPlaylistExists (playlistId : String)
  | qSelectSongExists (songId : String)
  | qInsertPlaylistSong (id playlistId songId : String)
  | qDeletePlaylistSongRow (playlistId songId : String)
  | qInsertActivity (id playlistId songId userId action : String)
  | qSelectActivities (playlistId : String)
deriving Repr, DecidableEq

/-- Is this event the like-table insert? (Used to state that a conflict was
or was not raised by the insert itself.) -/
def Ev.isInsertLike : Ev → Bool
  | .qInsertLike _ _ _ => true
  | _ => false

/-- Is this event an existence-check read on `user_album_likes`? -/
def Ev.isSelectLikeExists : Ev → Bool
  | .qSelectLikeExists _ _ => true
  | _ => false

/-- Durable-store write events (inserts and deletes on tables). -/
def Ev.isStoreWrite : Ev → Bool
  | .qInsertLike _ _ _ => true
  | .qDeleteLike _ _ => true
  | .qDeletePlaylist _ => true
  | .qInsertPlaylistSong _ _ _ => true
  | .qDeletePlaylistSongRow _ _ => true
  | .qInsertActivity _ _ _ _ _ => true
  | _ => false

/-- `like-${nanoid(16)}` modelled with the fresh-id counter. -/
def likeId (n : Nat) : String := "like-" ++ toString n

/-- Does a `(user_id, album_id)` like row exist? -/
def hasLike (likes : List Like) (userId albumId : String) : Bool :=
  likes.any fun l => l.user == userId && l.album == albumId

/-- `SELECT COUNT(*) FROM user_album_likes WHERE album_id = $1`. -/
def likeCountFor (likes : List Like) (albumId : String) : Nat :=
  (likes.filter fun l => l.album == albumId).length

/-- Lookup of a cache key in the Redis content. -/
def cacheLookup (c : List CacheEntry) (k : String) : Option Nat :=
  (c.find? fun e => e.key == k).map (·.value)

/-- Redis `SET key value EX ttl`: replaces any entry under the key. -/
def cacheSetList (c : List CacheEntry) (k : String) (v ttl : Nat) : List CacheEntry :=
  ⟨k, v, ttl⟩ :: c.filter fun e => !(e.key == k)

/-- Redis `DEL key`. -/
def cacheDelList (c : List CacheEntry) (k : String) : List CacheEntry :=
  c.filter fun e => !(e.key == k)

namespace CacheService

/-- Default `expirationInSeconds` of `CacheService.set` (applied whenever a
caller omits the third argument, as `countLikes` does). -/
def defaultTTL : Nat := 3600

/-- `CacheService.get`: transport failure, else the stored value, else
`throw new Error('Cache not found')`. -/
def get (s : St) (k : String) : Except Err Nat :=
  if s.cacheGetFails then .error .cacheTransport
  else
    match cacheLookup s.cache k with
    | some v => .ok v
    | none => .error .cacheMiss

/-- `CacheService.set` with explicit expiry; returns the new cache content
or a transport failure. -/
def set (s : St) (k : String) (v ttl : Nat) : Except Err (List CacheEntry) :=
  if s.cacheSetFails then .error .cacheTransport
  else .ok (cacheSetList s.cache k v ttl)

/-- `CacheService.delete`; returns the new cache content or a transport
failure. -/
def delete (s : St) (k : String) : Except Err (List CacheEntry) :=
  if s.cacheDelFails then .error .cacheTransport
  else .ok (cacheDelList s.cache k)

end CacheService

/-- Cache key used by the `src/` copy of `AlbumLikesService`. -/
def likesKey (albumId : String) : String := "album-likes:" ++ albumId

/-- `AlbumLikesService.addLike` (src copy): pre-checks existence with a
`SELECT`, throws `InvariantError` on a duplicate, otherwise inserts and
deletes the cached count. The `!result.rows[0].id` guard cannot fire on a
successful `INSERT ... RETURNING id` and is not a reachable branch. -/
def addLike (s : St) (userId albumId : String) :
    Except Err String × St × List Ev :=
  if hasLike s.likes userId albumId then
    (.error (.invariantError "Anda hanya boleh like sekali"), s,
      [.qSelectLikeExists userId albumId])
  else
    let id := likeId s.nextId
    let s1 : St := { s with
      likes := s.likes ++ [⟨id, userId, albumId⟩]
      nextId := s.nextId + 1 }
    let tr := [Ev.qSelectLikeExists userId albumId,
      Ev.qInsertLike id userId albumId, Ev.cDel (likesKey albumId)]
    match CacheService.delete s1 (likesKey albumId) with
    | .error e => (.error e, s1, tr)
    | .ok c => (.ok id, { s1 with cache := c }, tr)

/-- `AlbumLikesService.deleteLike` (src copy): `DELETE ... RETURNING id`,
`NotFoundError` when no row matched, else deletes the cached count. -/
def deleteLike (s : St) (userId albumId : String) :
    Except Err Unit × St × List Ev :=
  if hasLike s.likes userId albumId then
    let s1 : St := { s with
      likes := s.likes.filter fun l => !(l.user == userId && l.album == albumId) }
    let tr := [Ev.qDeleteLike userId albumId, Ev.cDel (likesKey albumId)]
    match CacheService.delete s1 (likesKey albumId) with
    | .error e => (.error e, s1, tr)
    | .ok c => (.ok (), { s1 with cache := c }, tr)
  else
    (.error (.notFoundError "Anda belum like album ini"), s,
      [.qDeleteLike userId albumId])

/-- `AlbumLikesService.countLikes` (src copy): `try` the cache get — the
`catch` takes every failure, transport included — and on the fallback path
computes the aggregate, writes it back (`set` without an expiry argument,
so the `CacheService` default applies) and tags the result `fromCache:
false`. Result is `(count, fromCache)`. -/
def countLikes (s : St) (albumId : String) :
    Except Err (Nat × Bool) × St × List Ev :=
  match CacheService.get s (likesKey albumId) with
  | .ok v => (.ok (v, true), s, [.cGet (likesKey albumId)])
  | .error _ =>
    let n := likeCountFor s.likes albumId
    let tr := [Ev.cGet (likesKey albumId), Ev.qCountLikes albumId,
      Ev.cSet (likesKey albumId) n CacheService.defaultTTL]
    match CacheService.set s (likesKey albumId) n CacheService.defaultTTL with
    | .error e => (.error e, s, tr)
    | .ok c => (.ok (n, false), { s with cache := c }, tr)

/-- `SELECT owner FROM playlists WHERE id = $1`, first row. -/
def findPlaylist (s : St) (playlistId : String) : Option Playlist :=
  s.playlists.find? fun p => p.id == playlistId

/-- `PlaylistsService.verifyPlaylistOwner` (src copy): reads the owner;
`NotFoundError` when the playlist is missing, `AuthorizationError` when the
owner differs. The method only runs a `SELECT`, so it is embedded as a
state-preserving reader returning its result and the trace of that read. -/
def verifyPlaylistOwner (s : St) (playlistId userId : String) :
    Except Err Unit × List Ev :=
  match findPlaylist s playlistId with
  | none => (.error (.notFoundError "Playlist tidak ditemukan"),
      [.qSelectPlaylistOwner playlistId])
  | some p =>
    if p.owner == userId then (.ok (), [.qSelectPlaylistOwner playlistId])
    else (.error (.authorizationError "Anda tidak berhak mengakses playlist ini"),
      [.qSelectPlaylistOwner playlistId])

/-- `PlaylistsService.deletePlaylistById` (src copy): ownership gate first,
then the delete. The schema cascades the delete to `playlist_songs` and
`playlist_song_activities` (both carry `ON DELETE CASCADE` on
`playlist_id`). -/
def deletePlaylistById (s : St) (playlistId userId : String) :
    Except Err Unit × St × List Ev :=
  match verifyPlaylistOwner s playlistId userId with
  | (.error e, tr) => (.error e, s, tr)
  | (.ok _, tr) =>
    if s.playlists.any fun p => p.id == playlistId then
      (.ok (), { s with
        playlists := s.playlists.filter fun p => !(p.id == playlistId)
        playlistSongs := s.playlistSongs.filter fun ps => !(ps.playlist_id == playlistId)
        activities := s.activities.filter fun a => !(a.playlist_id == playlistId) },
        tr ++ [.qDeletePlaylist playlistId])
    else
      (.error (.notFoundError "Playlist gagal dihapus, Id tidak ditemukan"), s,
        tr ++ [.qDeletePlaylist playlistId])

/-- `SELECT id FROM songs WHERE id = $1` row count. -/
def hasSong (s : St) (songId : String) : Bool :=
  s.songs.any fun sg => sg.id == songId

/-- Does a `(playlist_id, song_id)` membership row exist? -/
def hasPlaylistSong (s : St) (playlistId songId : String) : Bool :=
  s.playlistSongs.any fun ps => ps.playlist_id == playlistId && ps.song_id == songId

/-- `playlist-song-${nanoid(16)}` modelled with the fresh-id counter. -/
def playlistSongId (n : Nat) : String := "playlist-song-" ++ toString n

/-- `PlaylistsService.addPlaylistSong` (src copy): ownership gate first,
then a redundant playlist-existence check, a song-existence check, and the
insert. The insert is not wrapped in any `try`, so a duplicate pair raises
the raw `unique_playlist_id_and_song_id` constraint violation, which
propagates unmapped. -/
def addPlaylistSong (s : St) (playlistId songId userId : String) :
    Except Err String × St × List Ev :=
  match verifyPlaylistOwner s playlistId userId with
  | (.error e, tr) => (.error e, s, tr)
  | (.ok _, tr) =>
    if !(s.playlists.any fun p => p.id == playlistId) then
      (.error (.notFoundError "Playlist tidak ditemukan"), s,
        tr ++ [.qSelectPlaylistExists playlistId])
    else if !(hasSong s songId) then
      (.error (.notFoundError "Lagu tidak ditemukan"), s,
        tr ++ [.qSelectPlaylistExists playlistId, .qSelectSongExists songId])
    else
      let id := playlistSongId s.nextId
      let tr2 := tr ++ [Ev.qSelectPlaylistExists playlistId,
        Ev.qSelectSongExists songId, Ev.qInsertPlaylistSong id playlistId songId]
      if hasPlaylistSong s playlistId songId then
        (.error (.pgConstraintViolation "unique_playlist_id_and_song_id"), s, tr2)
      else
        (.ok id, { s with
          playlistSongs := s.playlistSongs ++ [⟨id, playlistId, songId⟩]
          nextId := s.nextId + 1 }, tr2)

/-- `PlaylistsService.deletePlaylistSong` (src copy): ownership gate first,
then `DELETE ... RETURNING id` with `NotFoundError` when nothing matched. -/
def deletePlaylistSong (s : St) (playlistId songId userId : String) :
    Except Err Unit × St × List Ev :=
  match verifyPlaylistOwner s playlistId userId with
  | (.error e, tr) => (.error e, s, tr)
  | (.ok _, tr) =>
    if hasPlaylistSong s playlistId songId then
      (.ok (), { s with
        playlistSongs := s.playlistSongs.filter fun ps =>
          !(ps.playlist_id == playlistId && ps.song_id == songId) },
        tr ++ [.qDeletePlaylistSongRow playlistId songId])
    else
      (.error (.notFoundError "Lagu tidak ditemukan dalam playlist"), s,
        tr ++ [.qDeletePlaylistSongRow playlistId songId])

/-- One row of the guide copy's `getActivities` read: the columns the query
selects after joining `users` and `songs`. -/
structure ActivityRow where
  username : String
  title : String
  action : String
  time : Nat
deriving Repr, DecidableEq

/-- Stable insertion into a time-ascending list (`ORDER BY time ASC`). -/
def insertByTime (r : ActivityRow) : List ActivityRow → List ActivityRow
  | [] => [r]
  | x :: xs => if r.time ≤ x.time then r :: x :: xs else x :: insertByTime r xs

/-- Stable sort by ascending `time` (`ORDER BY time ASC`). -/
def sortByTime : List ActivityRow → List ActivityRow
  | [] => []
  | x :: xs => insertByTime x (sortByTime xs)

/-- `users.find` by id, as the `JOIN users` row lookup. -/
def lookupUser (us : List User) (userId : String) : Option User :=
  us.find? fun u => u.id == userId

/-- `songs.find` by id, as the `JOIN songs` row lookup. -/
def lookupSong (sgs : List Song) (songId : String) : Option Song :=
  sgs.find? fun sg => sg.id == songId

/-- The row set of the guide copy's `getActivities` query before ordering:
activities of the playlist inner-joined with `users` and `songs` (rows whose
user or song is missing are dropped by the joins). -/
def joinedActivities (s : St) (playlistId : String) : List ActivityRow :=
  s.activities.filterMap fun a =>
    if a.playlist_id == playlistId then
      match lookupUser s.users a.user_id, lookupSong s.songs a.song_id with
      | some u, some sg => some ⟨u.username, sg.title, a.action, a.time⟩
      | _, _ => none
    else none

namespace Guide

/-- Cache key used by the guide copy of `AlbumLikesService`. -/
def likesKey (albumId : String) : String := "likes:" ++ albumId

/-- `AlbumLikesService.addLike` (guide copy): inserts directly; a duplicate
raises the store's `unique_user_and_album` constraint violation from the
insert itself, which the `catch` maps to the distinct duplicate-like error.
Any other error (the cache delete's transport failure included) is
rethrown. No existence pre-read happens. -/
def addLike (s : St) (albumId userId : String) :
    Except Err String × St × List Ev :=
  let id := likeId s.nextId
  if hasLike s.likes userId albumId then
    (.error (.invariantError "You already liked this album"), s,
      [.qInsertLike id userId albumId])
  else
    let s1 : St := { s with
      likes := s.likes ++ [⟨id, userId, albumId⟩]
      nextId := s.nextId + 1 }
    let tr := [Ev.qInsertLike id userId albumId, Ev.cDel (Guide.likesKey albumId)]
    match CacheService.delete s1 (Guide.likesKey albumId) with
    | .error e => (.error e, s1, tr)
    | .ok c => (.ok id, { s1 with cache := c }, tr)

/-- `AlbumLikesService.deleteLike` (guide copy): `DELETE ... RETURNING id`,
`InvariantError` when no row matched, else deletes the cached count. -/
def deleteLike (s : St) (albumId userId : String) :
    Except Err Unit × St × List Ev :=
  if hasLike s.likes userId albumId then
    let s1 : St := { s with
      likes := s.likes.filter fun l => !(l.user == userId && l.album == albumId) }
    let tr := [Ev.qDeleteLike userId albumId, Ev.cDel (Guide.likesKey albumId)]
    match CacheService.delete s1 (Guide.likesKey albumId) with
    | .error e => (.error e, s1, tr)
    | .ok c => (.ok (), { s1 with cache := c }, tr)
  else
    (.error (.invariantError "Failed to unlike album"), s,
      [.qDeleteLike userId albumId])

/-- `AlbumLikesService.getLikeCount` (guide copy): same cache-aside shape
as the src copy's `countLikes`, with key `likes:` and the source tag as a
string. -/
def getLikeCount (s : St) (albumId : String) :
    Except Err (Nat × String) × St × List Ev :=
  match CacheService.get s (Guide.likesKey albumId) with
  | .ok v => (.ok (v, "cache"), s, [.cGet (Guide.likesKey albumId)])
  | .error _ =>
    let n := likeCountFor s.likes albumId
    let tr := [Ev.cGet (Guide.likesKey albumId), Ev.qCountLikes albumId,
      Ev.cSet (Guide.likesKey albumId) n CacheService.defaultTTL]
    match CacheService.set s (Guide.likesKey albumId) n CacheService.defaultTTL with
    | .error e => (.error e, s, tr)
    | .ok c => (.ok (n, "database"), { s with cache := c }, tr)

/-- `PlaylistsService.addSongToPlaylist` (guide copy): checks the song
exists, then inserts; a duplicate raises the
`unique_playlist_id_and_song_id` constraint violation from the insert,
which the `catch` maps to the distinct duplicate-membership error. -/
def addSongToPlaylist (s : St) (playlistId songId : String) :
    Except Err String × St × List Ev :=
  let id := "playlistsong-" ++ toString s.nextId
  if !(hasSong s songId) then
    (.error (.notFoundError "Song not found"), s, [.qSelectSongExists songId])
  else
    let tr := [Ev.qSelectSongExists songId,
      Ev.qInsertPlaylistSong id playlistId songId]
    if hasPlaylistSong s playlistId songId then
      (.error (.invariantError "Song already exists in playlist"), s, tr)
    else
      (.ok id, { s with
        playlistSongs := s.playlistSongs ++ [⟨id, playlistId, songId⟩]
        nextId := s.nextId + 1 }, tr)

/-- `activity-${nanoid(16)}` modelled with the fresh-id counter. -/
def activityId (n : Nat) : String := "activity-" ++ toString n

/-- `PlaylistsService.addActivity` (guide copy): inserts one record with a
server-assigned timestamp. The table's only foreign key is on
`playlist_id`, so an insert for a missing playlist raises that constraint
violation; `user_id` and `song_id` are unconstrained. -/
def addActivity (s : St) (playlistId songId userId action : String) :
    Except Err Unit × St × List Ev :=
  let id := activityId s.nextId
  if s.playlists.any fun p => p.id == playlistId then
    (.ok (), { s with
      activities := s.activities ++ [⟨id, playlistId, songId, userId, action, s.clock⟩]
      nextId := s.nextId + 1
      clock := s.clock + 1 },
      [.qInsertActivity id playlistId songId userId action])
  else
    (.error (.pgConstraintViolation "fk_playlist_song_activities.playlist_id_playlists.id"),
      s, [.qInsertActivity id playlistId songId userId action])

/-- `PlaylistsService.getActivities` (guide copy): the join over `users`
and `songs`, restricted to the playlist, ordered by `time` ascending. -/
def getActivities (s : St) (playlistId : String) :
    Except Err (List ActivityRow) × St × List Ev :=
  (.ok (sortByTime (joinedActivities s playlistId)), s,
    [.qSelectActivities playlistId])

end Guide

/-- One Append request of the activity log: `(songId, userId, action)`. -/
abbrev AppendReq := String × String × String

/-- Run a finite sequence of `Guide.addActivity` appends for one playlist,
threading the state (a failed append leaves the state unchanged). -/
def runAppends (s : St) (playlistId : String) : List AppendReq → St
  | [] => s
  | t :: ts =>
    runAppends (Guide.addActivity s playlistId t.1 t.2.1 t.2.2).2.1 playlistId ts

/-- The `getActivities` row an append produces once joined: username and
title resolved from the referenced user and song, at timestamp `c`. -/
def rowOf (us : List User) (sgs : List Song) (t : AppendReq) (c : Nat) :
    ActivityRow :=
  ⟨((lookupUser us t.2.1).map (·.username)).getD "",
   ((lookupSong sgs t.1).map (·.title)).getD "", t.2.2, c⟩

/-- The rows a sequence of appends starting at clock `c` produces. -/
def expectedRows (us : List User) (sgs : List Song) (c : Nat) :
    List AppendReq → List ActivityRow
  | [] => []
  | t :: ts => rowOf us sgs t c :: expectedRows us sgs (c + 1) ts

/-- Base state used by the witnesses: one like by `u1` on album `a1`, one
playlist `p1` owned by `u1` containing song `s1`, a healthy cache holding
the counter key with value 1. -/
def baseSt : St := {
  likes := [⟨"like-0", "u1", "a1"⟩]
  playlists := [⟨"p1", "My Playlist", "u1"⟩]
  users := [⟨"u1", "alice"⟩]
  songs := [⟨"s1", "Song One", "Perf"⟩]
  playlistSongs := [⟨"ps-0", "p1", "s1"⟩]
  activities := []
  cache := [⟨"album-likes:a1", 1, 3600⟩]
  cacheGetFails := false
  cacheSetFails := false
  cacheDelFails := false
  nextId := 1
  clock := 0 }

/-- A state for the C4 counterexample: the cache content still holds a
stale value 7 under the counter key, but the cache transport is down, so
the lookup fails at transport level (not a logical miss). The store holds
one like for `a1`. -/
def transportDownSt : St := { baseSt with
  cache := [⟨"album-likes:a1", 7, 3600⟩]
  cacheGetFails := true }

/-- A state for the C4 counterexample: cache reachable but the key is
absent — a pure logical miss. Same store content as `transportDownSt`. -/
def missSt : St := { baseSt with cache := [] }

/-- A state for the C9 counterexample: playlist `p1` exists and song `s1`
exists, but the `users` table is empty, so an activity referencing any
user cannot survive the `JOIN users` of the read. -/
def act0St : St := {
  likes := []
  playlists := [⟨"p1", "My Playlist", "u1"⟩]
  users := []
  songs := [⟨"s1", "Song One", "Perf"⟩]
  playlistSongs := []
  activities := []
  cache := []
  cacheGetFails := false
  cacheSetFails := false
  cacheDelFails := false
  nextId := 0
  clock := 0 }

/-! ## Helper lemmas -/

/-- The ownership gate always performs exactly its one owner read. -/
theorem verifyPlaylistOwner_trace (s : St) (pid uid : String) :
    (verifyPlaylistOwner s pid uid).2 = [.qSelectPlaylistOwner pid] := by
  unfold verifyPlaylistOwner
  rcases findPlaylist s pid with _ | p
  · rfl
  · by_cases h : p.owner == uid <;> simp [h]

/-- A playlist found by the gate is present for the `any`-existence check. -/
theorem findPlaylist_any (s : St) (pid : String) (p : Playlist)
    (h : findPlaylist s pid = some p) :
    (s.playlists.any fun q => q.id == pid) = true := by
  have hm := List.find?_some h
  have hmem := List.mem_of_find?_eq_some h
  exact List.any_eq_true.mpr ⟨p, hmem, hm⟩

/-- After a Redis `DEL`, the key is absent. -/
theorem cacheLookup_cacheDelList (c : List CacheEntry) (k : String) :
    cacheLookup (cacheDelList c k) k = none := by
  induction c with
  | nil => rfl
  | cons e t ih =>
    by_cases h : e.key == k <;> simp [cacheDelList, cacheLookup, h] at ih ⊢

/-- Whenever the cache lookup fails — with either failure kind — and the
write-back transport is up, `countLikes` recomputes from the store, writes
the count back with the default expiry, and returns it tagged computed. -/
theorem countLikes_lookup_error (s : St) (a : String) (e : Err)
    (hget : CacheService.get s (likesKey a) = .error e)
    (hset : s.cacheSetFails = false) :
    countLikes s a =
      (.ok (likeCountFor s.likes a, false),
        { s with cache := (cacheSetList s.cache (likesKey a)
            (likeCountFor s.likes a) CacheService.defaultTTL) },
        [.cGet (likesKey a), .qCountLikes a,
          .cSet (likesKey a) (likeCountFor s.likes a) CacheService.defaultTTL]) := by
  simp [countLikes, hget, CacheService.set, hset]

/-- Successful `addLike` in full: requires no prior like and a reachable
cache transport for the invalidation. -/
theorem addLike_ok (s : St) (u a : String)
    (hl : hasLike s.likes u a = false) (hd : s.cacheDelFails = false) :
    addLike s u a =
      (.ok (likeId s.nextId),
        { s with
          likes := s.likes ++ [⟨likeId s.nextId, u, a⟩]
          nextId := s.nextId + 1
          cache := cacheDelList s.cache (likesKey a) },
        [.qSelectLikeExists u a, .qInsertLike (likeId s.nextId) u a,
          .cDel (likesKey a)]) := by
  simp [addLike, CacheService.delete, hl, hd]

/-- A successful `addLike` can only have come from the no-prior-like branch
with the cache transport up. -/
theorem addLike_ok_inv (s : St) (u a id : String)
    (h : (addLike s u a).1 = .ok id) :
    hasLike s.likes u a = false ∧ s.cacheDelFails = false ∧ id = likeId s.nextId := by
  by_cases hl : hasLike s.likes u a
  · simp [addLike, hl] at h
  · by_cases hd : s.cacheDelFails
    · simp [addLike, CacheService.delete, hl, hd] at h
    · refine ⟨by simpa using hl, by simpa using hd, ?_⟩
      simp [addLike, CacheService.delete, hl, hd] at h
      exact h.symm

/-- Successful `deleteLike` in full. -/
theorem deleteLike_ok (s : St) (u a : String)
    (hl : hasLike s.likes u a = true) (hd : s.cacheDelFails = false) :
    deleteLike s u a =
      (.ok (),
        { s with
          likes := s.likes.filter fun l => !(l.user == u && l.album == a)
          cache := cacheDelList s.cache (likesKey a) },
        [.qDeleteLike u a, .cDel (likesKey a)]) := by
  simp [deleteLike, CacheService.delete, hl, hd]

/-- A successful `deleteLike` can only have come from the row-found branch
with the cache transport up. -/
theorem deleteLike_ok_inv (s : St) (u a : String)
    (h : (deleteLike s u a).1 = .ok ()) :
    hasLike s.likes u a = true ∧ s.cacheDelFails = false := by
  by_cases hl : hasLike s.likes u a
  · by_cases hd : s.cacheDelFails
    · simp [deleteLike, CacheService.delete, hl, hd] at h
    · exact ⟨hl, by simpa using hd⟩
  · simp [deleteLike, hl] at h

/-- When the counter key is absent and the write-back transport is up,
`countLikes` returns the store count tagged computed. -/
theorem countLikes_computed_of_absent (s : St) (a : String)
    (hlook : cacheLookup s.cache (likesKey a) = none)
    (hset : s.cacheSetFails = false) :
    (countLikes s a).1 = .ok (likeCountFor s.likes a, false) := by
  by_cases hg : s.cacheGetFails
  · rw [countLikes_lookup_error s a .cacheTransport
      (by simp [CacheService.get, hg]) hset]
  · rw [countLikes_lookup_error s a .cacheMiss
      (by simp [CacheService.get, hg, hlook]) hset]

/-- When the counter key is absent, any successful `countLikes` answer is
the store count tagged computed, whatever the transport flags. -/
theorem countLikes_ok_of_absent (s : St) (a : String)
    (hlook : cacheLookup s.cache (likesKey a) = none) (v : Nat) (b : Bool)
    (h : (countLikes s a).1 = .ok (v, b)) :
    b = false ∧ v = likeCountFor s.likes a := by
  by_cases hg : s.cacheGetFails <;> by_cases hset : s.cacheSetFails <;>
    simp [countLikes, CacheService.get, CacheService.set, hg, hset, hlook] at h <;>
    exact ⟨h.2, h.1.symm⟩

/-- The gate succeeds exactly on the playlist's owner. -/
theorem verifyPlaylistOwner_ok_of (s : St) (pid uid : String) (p : Playlist)
    (hp : findPlaylist s pid = some p) (he : p.owner = uid) :
    verifyPlaylistOwner s pid uid = (.ok (), [.qSelectPlaylistOwner pid]) := by
  simp [verifyPlaylistOwner, hp, he]

/-! ## Claim theorems -/

/-- C6: `verifyPlaylistOwner` fails with `NotFoundError` when the playlist
does not exist, fails with `AuthorizationError` when it exists with a
different owner, and returns normally when the caller owns it; in every
case it performs only the single owner read (no state change). -/
theorem verifyPlaylistOwner_cases (s : St) (pid uid : String) :
    (findPlaylist s pid = none →
      verifyPlaylistOwner s pid uid =
        (.error (.notFoundError "Playlist tidak ditemukan"),
          [.qSelectPlaylistOwner pid]))
    ∧ (∀ p, findPlaylist s pid = some p → p.owner ≠ uid →
        verifyPlaylistOwner s pid uid =
          (.error (.authorizationError "Anda tidak berhak mengakses playlist ini"),
            [.qSelectPlaylistOwner pid]))
    ∧ (∀ p, findPlaylist s pid = some p → p.owner = uid →
        verifyPlaylistOwner s pid uid = (.ok (), [.qSelectPlaylistOwner pid])) := by
  refine ⟨fun h => ?_, fun p hp hne => ?_, fun p hp he => ?_⟩
  · simp [verifyPlaylistOwner, h]
  · simp [verifyPlaylistOwner, hp, hne]
  · simp [verifyPlaylistOwner, hp, he]

/-- Witness for C6: all three branches at concrete inputs. -/
theorem verifyPlaylistOwner_cases_witness :
    verifyPlaylistOwner baseSt "p1" "u1" = (.ok (), [.qSelectPlaylistOwner "p1"])
    ∧ verifyPlaylistOwner baseSt "p1" "u2" =
        (.error (.authorizationError "Anda tidak berhak mengakses playlist ini"),
          [.qSelectPlaylistOwner "p1"])
    ∧ verifyPlaylistOwner baseSt "p9" "u1" =
        (.error (.notFoundError "Playlist tidak ditemukan"),
          [.qSelectPlaylistOwner "p9"]) :=
  ⟨(verifyPlaylistOwner_cases baseSt "p1" "u1").2.2 ⟨"p1", "My Playlist", "u1"⟩ rfl rfl,
   (verifyPlaylistOwner_cases baseSt "p1" "u2").2.1 ⟨"p1", "My Playlist", "u1"⟩ rfl
     (by decide),
   (verifyPlaylistOwner_cases baseSt "p9" "u1").1 rfl⟩

/-- C7: each of the three playlist mutators runs the ownership gate as its
very first store operation, and when the gate fails the mutator returns
the gate's error with the state unchanged and no store write performed
(its whole trace is the single gate read). -/
theorem mutators_gated (s : St) (pid sid uid : String) :
    ((deletePlaylistById s pid uid).2.2.head? = some (.qSelectPlaylistOwner pid)
      ∧ (addPlaylistSong s pid sid uid).2.2.head? = some (.qSelectPlaylistOwner pid)
      ∧ (deletePlaylistSong s pid sid uid).2.2.head? = some (.qSelectPlaylistOwner pid))
    ∧ (∀ e, (verifyPlaylistOwner s pid uid).1 = .error e →
        deletePlaylistById s pid uid = (.error e, s, [.qSelectPlaylistOwner pid])
        ∧ addPlaylistSong s pid sid uid = (.error e, s, [.qSelectPlaylistOwner pid])
        ∧ deletePlaylistSong s pid sid uid = (.error e, s, [.qSelectPlaylistOwner pid])) := by
  have htr := verifyPlaylistOwner_trace s pid uid
  rcases hv : verifyPlaylistOwner s pid uid with ⟨res, tr⟩
  have htr' : tr = [.qSelectPlaylistOwner pid] := by
    have := htr; rw [hv] at this; exact this
  subst htr'
  rcases res with e | u
  · refine ⟨⟨?_, ?_, ?_⟩, fun e' he' => ?_⟩
    · simp [deletePlaylistById, hv]
    · simp [addPlaylistSong, hv]
    · simp [deletePlaylistSong, hv]
    · simp only [Except.error.injEq] at he'
      subst he'
      exact ⟨by simp [deletePlaylistById, hv], by simp [addPlaylistSong, hv],
        by simp [deletePlaylistSong, hv]⟩
  · refine ⟨⟨?_, ?_, ?_⟩, fun e' he' => ?_⟩
    · simp only [deletePlaylistById, hv]
      split <;> rfl
    · simp only [addPlaylistSong, hv]
      repeat' split
      all_goals rfl
    · simp only [deletePlaylistSong, hv]
      split <;> rfl
    · simp at he'

/-- C5: `countLikes` consults the cache first; on a hit it returns the
cached integer tagged from the cache; on a logical miss (key absent, cache
reachable) it computes the count by the store aggregate over the like rows
of the album, writes it back under the counter key with the finite default
expiry of 3600 seconds, and returns it tagged computed
(`fromCache = false`). -/
theorem countLikes_cacheAside (s : St) (a : String) :
    (∀ v, CacheService.get s (likesKey a) = .ok v →
      countLikes s a = (.ok (v, true), s, [.cGet (likesKey a)]))
    ∧ (s.cacheGetFails = false → cacheLookup s.cache (likesKey a) = none →
        s.cacheSetFails = false →
        countLikes s a =
          (.ok (likeCountFor s.likes a, false),
            { s with cache := (cacheSetList s.cache (likesKey a)
                (likeCountFor s.likes a) CacheService.defaultTTL) },
            [.cGet (likesKey a), .qCountLikes a,
              .cSet (likesKey a) (likeCountFor s.likes a) CacheService.defaultTTL])
          ∧ cacheLookup (cacheSetList s.cache (likesKey a)
              (likeCountFor s.likes a) CacheService.defaultTTL) (likesKey a) =
            some (likeCountFor s.likes a)
          ∧ 0 < CacheService.defaultTTL) := by
  constructor
  · intro v hget
    simp [countLikes, hget]
  · intro hg hlook hs
    have hget : CacheService.get s (likesKey a) = .error .cacheMiss := by
      simp [CacheService.get, hg, hlook]
    refine ⟨?_, ?_, by simp [CacheService.defaultTTL]⟩
    · simp [countLikes, hget, CacheService.set, hs]
    · simp [cacheLookup, cacheSetList]

/-- Witness for C5: a hit on the populated cache of `baseSt` and a miss on
the same state with an empty cache. -/
theorem countLikes_cacheAside_witness :
    countLikes baseSt "a1" = (.ok (1, true), baseSt, [.cGet (likesKey "a1")])
    ∧ (countLikes { baseSt with cache := [] } "a1").1 = .ok (1, false)
    ∧ cacheLookup (countLikes { baseSt with cache := [] } "a1").2.1.cache
        (likesKey "a1") = some 1 := by
  refine ⟨(countLikes_cacheAside baseSt "a1").1 1 rfl, ?_, ?_⟩
  · rw [((countLikes_cacheAside { baseSt with cache := [] } "a1").2
      rfl rfl rfl).1]
    rfl
  · rw [((countLikes_cacheAside { baseSt with cache := [] } "a1").2
      rfl rfl rfl).1]
    rfl

/-- Counterexample to C4: a transport-level failure of the cache lookup is
treated exactly like a logical miss. On `transportDownSt` the lookup fails
at transport level (a stale entry 7 even exists), on `missSt` the key is
absent; `countLikes` returns the identical successful computed result with
the identical operation trace in both runs, so the two outcomes of the
cache lookup are not distinguishable in its behaviour, and no distinct
transport-failure outcome is surfaced. -/
theorem countLikes_conflates_transport_counterexample :
    (countLikes transportDownSt "a1").1 = .ok (1, false)
    ∧ (countLikes missSt "a1").1 = .ok (1, false)
    ∧ (countLikes transportDownSt "a1").1 = (countLikes missSt "a1").1
    ∧ (countLikes transportDownSt "a1").2.2 = (countLikes missSt "a1").2.2
    ∧ transportDownSt.cacheGetFails = true
    ∧ cacheLookup transportDownSt.cache (likesKey "a1") = some 7
    ∧ missSt.cacheGetFails = false
    ∧ cacheLookup missSt.cache (likesKey "a1") = none :=
  ⟨rfl, rfl, rfl, rfl, rfl, rfl, rfl, rfl⟩

/-- C4 as amended: `countLikes` does not distinguish the two failure
outcomes of the cache lookup. Whenever the lookup fails — with the
transport failure or with the logical-miss signal alike — it falls back to
the store aggregate, attempts the cache write-back, and (when that write
succeeds) returns the computed count tagged `fromCache = false`; the
failure kind `e` does not influence the outcome, and no distinct
transport-failure outcome exists. -/
theorem countLikes_fallback_uniform (s : St) (a : String) (e : Err)
    (hget : CacheService.get s (likesKey a) = .error e)
    (hset : s.cacheSetFails = false) :
    countLikes s a =
      (.ok (likeCountFor s.likes a, false),
        { s with cache := (cacheSetList s.cache (likesKey a)
            (likeCountFor s.likes a) CacheService.defaultTTL) },
        [.cGet (likesKey a), .qCountLikes a,
          .cSet (likesKey a) (likeCountFor s.likes a) CacheService.defaultTTL]) :=
  countLikes_lookup_error s a e hget hset

/-- Witness for the amended C4: both failure kinds at concrete states. -/
theorem countLikes_fallback_uniform_witness :
    (countLikes transportDownSt "a1").1 = .ok (1, false)
    ∧ (countLikes missSt "a1").1 = .ok (1, false) :=
  ⟨by rw [countLikes_fallback_uniform transportDownSt "a1" .cacheTransport rfl rfl]
      rfl,
   by rw [countLikes_fallback_uniform missSt "a1" .cacheMiss rfl rfl]
      rfl⟩

/-- Witness for C7: the gate fails with `AuthorizationError` for `u2` on
`p1`, and all three mutators return exactly that error with no change. -/
theorem mutators_gated_witness :
    deletePlaylistById baseSt "p1" "u2" =
      (.error (.authorizationError "Anda tidak berhak mengakses playlist ini"),
        baseSt, [.qSelectPlaylistOwner "p1"])
    ∧ addPlaylistSong baseSt "p1" "s1" "u2" =
      (.error (.authorizationError "Anda tidak berhak mengakses playlist ini"),
        baseSt, [.qSelectPlaylistOwner "p1"])
    ∧ deletePlaylistSong baseSt "p1" "s1" "u2" =
      (.error (.authorizationError "Anda tidak berhak mengakses playlist ini"),
        baseSt, [.qSelectPlaylistOwner "p1"]) :=
  (mutators_gated baseSt "p1" "s1" "u2").2
    (.authorizationError "Anda tidak berhak mengakses playlist ini") rfl

/-- C1: whenever `addLike` or `deleteLike` succeeds, the cached counter
entry for the album has been deleted from the cache in the state the
success is returned with (the invalidation trace event is part of the
call), so the next `countLikes` for that album (with the write-back
transport up) recomputes from the store and is tagged computed
(`fromCache = false`) — it can never serve a value cached before the
mutation. -/
theorem mutation_invalidates_before_ack (s : St) (u a : String) :
    (∀ id, (addLike s u a).1 = .ok id →
      cacheLookup (addLike s u a).2.1.cache (likesKey a) = none
      ∧ Ev.cDel (likesKey a) ∈ (addLike s u a).2.2
      ∧ (∀ v b, (countLikes (addLike s u a).2.1 a).1 = .ok (v, b) →
          b = false ∧ v = likeCountFor (addLike s u a).2.1.likes a)
      ∧ (s.cacheSetFails = false →
          (countLikes (addLike s u a).2.1 a).1 =
            .ok (likeCountFor (addLike s u a).2.1.likes a, false)))
    ∧ ((deleteLike s u a).1 = .ok () →
      cacheLookup (deleteLike s u a).2.1.cache (likesKey a) = none
      ∧ Ev.cDel (likesKey a) ∈ (deleteLike s u a).2.2
      ∧ (∀ v b, (countLikes (deleteLike s u a).2.1 a).1 = .ok (v, b) →
          b = false ∧ v = likeCountFor (deleteLike s u a).2.1.likes a)
      ∧ (s.cacheSetFails = false →
          (countLikes (deleteLike s u a).2.1 a).1 =
            .ok (likeCountFor (deleteLike s u a).2.1.likes a, false))) := by
  constructor
  · intro id h
    obtain ⟨hl, hd, hid⟩ := addLike_ok_inv s u a id h
    rw [addLike_ok s u a hl hd]
    exact ⟨cacheLookup_cacheDelList s.cache (likesKey a), by simp,
      countLikes_ok_of_absent _ a (cacheLookup_cacheDelList s.cache (likesKey a)),
      fun hset => countLikes_computed_of_absent _ a
        (cacheLookup_cacheDelList s.cache (likesKey a)) hset⟩
  · intro h
    obtain ⟨hl, hd⟩ := deleteLike_ok_inv s u a h
    rw [deleteLike_ok s u a hl hd]
    exact ⟨cacheLookup_cacheDelList s.cache (likesKey a), by simp,
      countLikes_ok_of_absent _ a (cacheLookup_cacheDelList s.cache (likesKey a)),
      fun hset => countLikes_computed_of_absent _ a
        (cacheLookup_cacheDelList s.cache (likesKey a)) hset⟩

/-- Witness for C1: a successful like by `u2` and unlike by `u1` on
`baseSt`, whose cache holds the counter key beforehand. -/
theorem mutation_invalidates_before_ack_witness :
    (cacheLookup (addLike baseSt "u2" "a1").2.1.cache (likesKey "a1") = none
      ∧ Ev.cDel (likesKey "a1") ∈ (addLike baseSt "u2" "a1").2.2
      ∧ (2 : Nat) = likeCountFor (addLike baseSt "u2" "a1").2.1.likes "a1"
      ∧ (countLikes (addLike baseSt "u2" "a1").2.1 "a1").1 =
          .ok (likeCountFor (addLike baseSt "u2" "a1").2.1.likes "a1", false))
    ∧ (cacheLookup (deleteLike baseSt "u1" "a1").2.1.cache (likesKey "a1") = none
      ∧ Ev.cDel (likesKey "a1") ∈ (deleteLike baseSt "u1" "a1").2.2
      ∧ (0 : Nat) = likeCountFor (deleteLike baseSt "u1" "a1").2.1.likes "a1"
      ∧ (countLikes (deleteLike baseSt "u1" "a1").2.1 "a1").1 =
          .ok (likeCountFor (deleteLike baseSt "u1" "a1").2.1.likes "a1", false)) := by
  have h1 := (mutation_invalidates_before_ack baseSt "u2" "a1").1 "like-1" rfl
  have h2 := (mutation_invalidates_before_ack baseSt "u1" "a1").2 rfl
  exact ⟨⟨h1.1, h1.2.1, (h1.2.2.1 2 false rfl).2, h1.2.2.2 rfl⟩,
    ⟨h2.1, h2.2.1, (h2.2.2.1 0 false rfl).2, h2.2.2.2 rfl⟩⟩

/-- C10: when `addLike` fails with the duplicate-like conflict or
`deleteLike` fails with its not-found error, the returned state is exactly
the input state — neither the like rows nor the cached counter entry are
touched — and the trace shows no cache invalidation; moreover any run that
issues the cache delete has it as the last event, strictly after the
successful store write. -/
theorem mutation_atomic_on_failure (s : St) (u a : String) :
    ((addLike s u a).1 = .error (.invariantError "Anda hanya boleh like sekali") →
      (addLike s u a).2.1 = s ∧ (addLike s u a).2.2 = [.qSelectLikeExists u a])
    ∧ ((deleteLike s u a).1 = .error (.notFoundError "Anda belum like album ini") →
      (deleteLike s u a).2.1 = s ∧ (deleteLike s u a).2.2 = [.qDeleteLike u a])
    ∧ (Ev.cDel (likesKey a) ∈ (addLike s u a).2.2 →
      (addLike s u a).2.2 = [.qSelectLikeExists u a,
        .qInsertLike (likeId s.nextId) u a, .cDel (likesKey a)])
    ∧ (Ev.cDel (likesKey a) ∈ (deleteLike s u a).2.2 →
      (deleteLike s u a).2.2 = [.qDeleteLike u a, .cDel (likesKey a)]) := by
  by_cases hl : hasLike s.likes u a <;> by_cases hd : s.cacheDelFails <;>
    refine ⟨fun h => ?_, fun h => ?_, fun h => ?_, fun h => ?_⟩ <;>
    simp_all [addLike, deleteLike, CacheService.delete]

/-- Witness for C10: the conflicting re-like and the unlike of a
non-existent like at `baseSt`, plus the delete-after-write trace shapes of
the two successful mutations. -/
theorem mutation_atomic_on_failure_witness :
    ((addLike baseSt "u1" "a1").2.1 = baseSt
      ∧ (addLike baseSt "u1" "a1").2.2 = [.qSelectLikeExists "u1" "a1"])
    ∧ ((deleteLike baseSt "u2" "a1").2.1 = baseSt
      ∧ (deleteLike baseSt "u2" "a1").2.2 = [.qDeleteLike "u2" "a1"])
    ∧ (addLike baseSt "u2" "a1").2.2 = [.qSelectLikeExists "u2" "a1",
        .qInsertLike "like-1" "u2" "a1", .cDel (likesKey "a1")]
    ∧ (deleteLike baseSt "u1" "a1").2.2 = [.qDeleteLike "u1" "a1",
        .cDel (likesKey "a1")] := by
  refine ⟨(mutation_atomic_on_failure baseSt "u1" "a1").1 rfl,
    (mutation_atomic_on_failure baseSt "u2" "a1").2.1 rfl,
    ?_, ?_⟩
  · exact (mutation_atomic_on_failure baseSt "u2" "a1").2.2.1 (by decide)
  · exact (mutation_atomic_on_failure baseSt "u1" "a1").2.2.2 (by decide)

/-- C3: from a state with no `(u, a)` like (and the cache transport up so
the first call can invalidate), calling `addLike` twice in sequence yields
success then the duplicate-like conflict error, and the final state holds
exactly one `(u, a)` like row. -/
theorem addLike_twice (s : St) (u a : String)
    (h0 : (s.likes.filter fun l => l.user == u && l.album == a) = [])
    (hdel : s.cacheDelFails = false) :
    (addLike s u a).1 = .ok (likeId s.nextId)
    ∧ (addLike (addLike s u a).2.1 u a).1 =
        .error (.invariantError "Anda hanya boleh like sekali")
    ∧ ((addLike (addLike s u a).2.1 u a).2.1.likes.filter
        fun l => l.user == u && l.album == a).length = 1 := by
  have hl : hasLike s.likes u a = false := by
    simp only [hasLike, List.any_eq_false]
    intro l hmem
    have := List.filter_eq_nil_iff.mp h0 l hmem
    simp_all
  rw [addLike_ok s u a hl hdel]
  have hl1 : hasLike (s.likes ++ [⟨likeId s.nextId, u, a⟩]) u a = true := by
    simp [hasLike]
  refine ⟨rfl, ?_, ?_⟩
  · simp [addLike, hl1]
  · simp [addLike, hl1, List.filter_append, h0]

/-- Witness for C3: `u2` had not liked `a1` in `baseSt`; liking twice
gives success, then the conflict, then exactly one row. -/
theorem addLike_twice_witness :
    (addLike baseSt "u2" "a1").1 = .ok "like-1"
    ∧ (addLike (addLike baseSt "u2" "a1").2.1 "u2" "a1").1 =
        .error (.invariantError "Anda hanya boleh like sekali")
    ∧ ((addLike (addLike baseSt "u2" "a1").2.1 "u2" "a1").2.1.likes.filter
        fun l => l.user == "u2" && l.album == "a1").length = 1 :=
  addLike_twice baseSt "u2" "a1" rfl rfl

/-- Counterexample to C2: in the authoritative `src/` copy, re-liking an
already-liked album surfaces the conflict from the prior existence read —
the run's trace is the single `SELECT`, containing the existence read and
no insert at all, so no store constraint-violation signal is ever raised —
and the error surfaced is the pre-check's `InvariantError`, not an error
recognised from a constraint-violation signal. -/
theorem addLike_precheck_counterexample :
    addLike baseSt "u1" "a1" =
      (.error (.invariantError "Anda hanya boleh like sekali"), baseSt,
        [.qSelectLikeExists "u1" "a1"])
    ∧ (addLike baseSt "u1" "a1").2.2.filter Ev.isInsertLike = []
    ∧ (addLike baseSt "u1" "a1").2.2.filter Ev.isSelectLikeExists =
        [.qSelectLikeExists "u1" "a1"] :=
  ⟨rfl, rfl, rfl⟩

/-- C2 as amended: only the guide copy determines the duplicate-like
conflict by the uniqueness-constraint signal of the insert itself — its
conflicting run consists of the insert alone, with no prior existence
read, and the `catch` maps the `unique_user_and_album` violation to the
distinct duplicate-like error. The authoritative `src/` copy instead
pre-checks existence with a `SELECT` and surfaces the conflict from that
read, issuing no insert (so no constraint signal is involved). -/
theorem addLike_conflict_mechanisms (s : St) (u a : String)
    (h : hasLike s.likes u a = true) :
    Guide.addLike s a u =
      (.error (.invariantError "You already liked this album"), s,
        [.qInsertLike (likeId s.nextId) u a])
    ∧ (Guide.addLike s a u).2.2.filter Ev.isSelectLikeExists = []
    ∧ addLike s u a =
      (.error (.invariantError "Anda hanya boleh like sekali"), s,
        [.qSelectLikeExists u a])
    ∧ (addLike s u a).2.2.filter Ev.isInsertLike = [] := by
  refine ⟨?_, ?_, ?_, ?_⟩ <;>
    simp [Guide.addLike, addLike, h, Ev.isSelectLikeExists, Ev.isInsertLike]

/-- Witness for the amended C2 at `baseSt`, where `u1` already likes
`a1`. -/
theorem addLike_conflict_mechanisms_witness :
    Guide.addLike baseSt "a1" "u1" =
      (.error (.invariantError "You already liked this album"), baseSt,
        [.qInsertLike "like-1" "u1" "a1"])
    ∧ addLike baseSt "u1" "a1" =
      (.error (.invariantError "Anda hanya boleh like sekali"), baseSt,
        [.qSelectLikeExists "u1" "a1"]) :=
  ⟨(addLike_conflict_mechanisms baseSt "u1" "a1" rfl).1,
   (addLike_conflict_mechanisms baseSt "u1" "a1" rfl).2.2.1⟩

/-- Counterexample to C8: in the authoritative `src/` copy of
`addPlaylistSong`, inserting a membership already present surfaces the raw
store constraint-violation error unmapped — a generic store failure, not a
distinct application-level conflict error — though the membership set is
indeed left unchanged. (`u1` owns `p1` and `s1` is already in it.) -/
theorem addPlaylistSong_duplicate_counterexample :
    (addPlaylistSong baseSt "p1" "s1" "u1").1 =
      .error (.pgConstraintViolation "unique_playlist_id_and_song_id")
    ∧ (addPlaylistSong baseSt "p1" "s1" "u1").2.1 = baseSt :=
  ⟨rfl, rfl⟩

/-- C8 as amended: membership is unique per `(playlist_id, song_id)` and a
duplicate insert leaves the membership set unchanged in both copies, but
only the guide copy surfaces the store's `unique_playlist_id_and_song_id`
violation as the distinct duplicate-membership conflict error; the
authoritative `src/` copy lets the raw constraint-violation store error
propagate unmapped. -/
theorem membership_unique_conflict (s : St) (pid sid uid : String)
    (p : Playlist) (hp : findPlaylist s pid = some p) (howner : p.owner = uid)
    (hsong : hasSong s sid = true) (hdup : hasPlaylistSong s pid sid = true) :
    addPlaylistSong s pid sid uid =
      (.error (.pgConstraintViolation "unique_playlist_id_and_song_id"), s,
        [.qSelectPlaylistOwner pid, .qSelectPlaylistExists pid,
          .qSelectSongExists sid,
          .qInsertPlaylistSong (playlistSongId s.nextId) pid sid])
    ∧ Guide.addSongToPlaylist s pid sid =
      (.error (.invariantError "Song already exists in playlist"), s,
        [.qSelectSongExists sid,
          .qInsertPlaylistSong ("playlistsong-" ++ toString s.nextId) pid sid]) := by
  have hv := verifyPlaylistOwner_ok_of s pid uid p hp howner
  have hany := findPlaylist_any s pid p hp
  constructor
  · simp [addPlaylistSong, hv, hany, hsong, hdup]
  · simp [Guide.addSongToPlaylist, hsong, hdup]

/-- Witness for the amended C8 at `baseSt`. -/
theorem membership_unique_conflict_witness :
    (addPlaylistSong baseSt "p1" "s1" "u1").1 =
      .error (.pgConstraintViolation "unique_playlist_id_and_song_id")
    ∧ (Guide.addSongToPlaylist baseSt "p1" "s1").1 =
      .error (.invariantError "Song already exists in playlist") := by
  have h := membership_unique_conflict baseSt "p1" "s1" "u1"
    ⟨"p1", "My Playlist", "u1"⟩ rfl rfl rfl rfl
  rw [h.1, h.2]
  exact ⟨rfl, rfl⟩

/-- Appending one activity to a state whose playlist exists extends the
joined row set by exactly the appended record's joined row (when its user
and song references resolve), stamped with the state's clock. -/
theorem joinedActivities_addActivity (s : St) (pid : String) (t : AppendReq)
    (hp : (s.playlists.any fun p => p.id == pid) = true)
    (hu : (lookupUser s.users t.2.1).isSome = true)
    (hs : (lookupSong s.songs t.1).isSome = true) :
    joinedActivities (Guide.addActivity s pid t.1 t.2.1 t.2.2).2.1 pid
      = joinedActivities s pid ++ [rowOf s.users s.songs t s.clock] := by
  rcases hu' : lookupUser s.users t.2.1 with _ | u
  · rw [hu'] at hu; simp at hu
  rcases hs' : lookupSong s.songs t.1 with _ | sg
  · rw [hs'] at hs; simp at hs
  simp [Guide.addActivity, hp, joinedActivities, List.filterMap_append,
    hu', hs', rowOf]

/-- Running a sequence of appends (whose user and song references resolve
and whose playlist exists) extends the joined row set by exactly the
expected rows, one per append, stamped with consecutive clock values. -/
theorem joinedActivities_runAppends (pid : String) (us : List User)
    (sgs : List Song) (l : List AppendReq)
    (hres : ∀ t ∈ l, (lookupUser us t.2.1).isSome = true
      ∧ (lookupSong sgs t.1).isSome = true) :
    ∀ s : St, s.users = us → s.songs = sgs →
      (s.playlists.any fun p => p.id == pid) = true →
      joinedActivities (runAppends s pid l) pid
        = joinedActivities s pid ++ expectedRows us sgs s.clock l := by
  induction l with
  | nil => intro s hus hsgs hp; simp [runAppends, expectedRows]
  | cons t ts ih =>
    intro s hus hsgs hp
    subst hus
    subst hsgs
    obtain ⟨hu, hs⟩ := hres t (by simp)
    have hstep := joinedActivities_addActivity s pid t hp hu hs
    have hrec := ih (fun t' ht' => hres t' (by simp [ht']))
      (Guide.addActivity s pid t.1 t.2.1 t.2.2).2.1
      (by simp [Guide.addActivity, hp])
      (by simp [Guide.addActivity, hp])
      (by simp [Guide.addActivity, hp])
    have hclock : (Guide.addActivity s pid t.1 t.2.1 t.2.2).2.1.clock
        = s.clock + 1 := by
      simp [Guide.addActivity, hp]
    rw [runAppends, hrec, hclock, hstep, expectedRows]
    simp

/-- Every expected row carries a timestamp at least the starting clock. -/
theorem expectedRows_time_ge (us : List User) (sgs : List Song)
    (l : List AppendReq) :
    ∀ c, ∀ r ∈ expectedRows us sgs c l, c ≤ r.time := by
  induction l with
  | nil => intro c r hr; simp [expectedRows] at hr
  | cons t ts ih =>
    intro c r hr
    rw [expectedRows] at hr
    rcases List.mem_cons.mp hr with h | h
    · subst h; exact Nat.le_refl c
    · exact Nat.le_trans (Nat.le_succ c) (ih (c + 1) r h)

/-- The expected rows are time-ascending. -/
theorem expectedRows_pairwise (us : List User) (sgs : List Song)
    (l : List AppendReq) :
    ∀ c, (expectedRows us sgs c l).Pairwise fun r r' => r.time ≤ r'.time := by
  induction l with
  | nil => intro c; simp [expectedRows]
  | cons t ts ih =>
    intro c
    rw [expectedRows]
    refine List.Pairwise.cons (fun r hr => ?_) (ih (c + 1))
    exact Nat.le_trans (Nat.le_succ c) (expectedRows_time_ge us sgs ts (c + 1) r hr)

/-- Sorting by time is the identity on a time-ascending list. -/
theorem sortByTime_sorted_eq (l : List ActivityRow)
    (h : l.Pairwise fun r r' => r.time ≤ r'.time) : sortByTime l = l := by
  induction l with
  | nil => rfl
  | cons x xs ih =>
    rw [List.pairwise_cons] at h
    rw [sortByTime, ih h.2]
    cases xs with
    | nil => rfl
    | cons y ys => simp [insertByTime, h.1 y (by simp)]

/-- Each append contributes exactly one expected row. -/
theorem expectedRows_length (us : List User) (sgs : List Song)
    (l : List AppendReq) :
    ∀ c, (expectedRows us sgs c l).length = l.length := by
  induction l with
  | nil => intro c; rfl
  | cons t ts ih => intro c; rw [expectedRows]; simp [ih (c + 1)]

/-- Counterexample to C9: from `act0St` (playlist `p1` and song `s1`
exist, `users` table empty) a single `addActivity` append succeeds and
leaves one stored activity record, yet `getActivities` returns the empty
sequence — not the appended record — because the read's inner `JOIN users`
drops the row (`playlist_song_activities` has no foreign key on
`user_id`). -/
theorem getActivities_join_drops_counterexample :
    (Guide.addActivity act0St "p1" "s1" "u9" "add").1 = .ok ()
    ∧ (Guide.addActivity act0St "p1" "s1" "u9" "add").2.1.activities.length = 1
    ∧ (Guide.getActivities
        (Guide.addActivity act0St "p1" "s1" "u9" "add").2.1 "p1").1 =
      .ok ([] : List ActivityRow) :=
  ⟨rfl, rfl, rfl⟩

/-- C9 as amended: starting from a state with no recorded activity, after
any finite sequence of appends for an existing playlist whose user and
song references resolve in the `users` and `songs` tables (the read inner
joins on both, so unresolvable references are dropped), `getActivities`
returns exactly the appended records — one joined row per append, in
append order, with strictly ascending server-assigned timestamps — and
`getActivities` on a playlist with zero recorded activity returns the
empty sequence rather than an error. -/
theorem activities_append_then_list (s0 : St) (pid : String)
    (l : List AppendReq) (h0 : s0.activities = [])
    (hp : (s0.playlists.any fun p => p.id == pid) = true)
    (hres : ∀ t ∈ l, (lookupUser s0.users t.2.1).isSome = true
      ∧ (lookupSong s0.songs t.1).isSome = true) :
    (Guide.getActivities (runAppends s0 pid l) pid).1 =
      .ok (expectedRows s0.users s0.songs s0.clock l)
    ∧ (expectedRows s0.users s0.songs s0.clock l).length = l.length
    ∧ (Guide.getActivities s0 pid).1 = .ok ([] : List ActivityRow) := by
  have hjoin := joinedActivities_runAppends pid s0.users s0.songs l hres s0
    rfl rfl hp
  have hempty : joinedActivities s0 pid = [] := by
    simp [joinedActivities, h0]
  refine ⟨?_, expectedRows_length s0.users s0.songs l s0.clock, ?_⟩
  · show Except.ok (sortByTime (joinedActivities (runAppends s0 pid l) pid)) = _
    rw [hjoin, hempty, List.nil_append,
      sortByTime_sorted_eq _ (expectedRows_pairwise s0.users s0.songs l s0.clock)]
  · show Except.ok (sortByTime (joinedActivities s0 pid)) = _
    rw [hempty]
    rfl

/-- Witness for the amended C9: two appends on `baseSt` list back exactly
the two joined records in append order at times 0 and 1; `baseSt` itself
(zero activity) lists the empty sequence. -/
theorem activities_append_then_list_witness :
    (Guide.getActivities
        (runAppends baseSt "p1" [("s1", "u1", "add"), ("s1", "u1", "delete")])
        "p1").1 =
      .ok [⟨"alice", "Song One", "add", 0⟩, ⟨"alice", "Song One", "delete", 1⟩]
    ∧ (Guide.getActivities baseSt "p1").1 = .ok ([] : List ActivityRow) := by
  have h := activities_append_then_list baseSt "p1"
    [("s1", "u1", "add"), ("s1", "u1", "delete")] rfl rfl (by decide)
  exact ⟨h.1, h.2.2⟩
